import Mathlib

/-!
Verification of the pickle container library (src/Result/Result.ts and
src/Option/Option.ts) against its natural-language specification.

The TypeScript source is shallowly embedded: the `Result` sum type mirrors the
`Ok`/`Err` classes, `Opt` mirrors the `Some`/`None` classes of the library's
`Option` (renamed to avoid clashing with Lean core `Option`, which is used to
model TypeScript `T | null` slots).  Methods whose bodies contain a `throw`
are embedded in `Except`, with `throw x` translated to `Except.error x`;
methods without a `throw` are embedded as plain total functions.  JavaScript
primitive values (null, undefined, booleans, numbers, strings) are modelled by
`JSValue`, with JavaScript truthiness made explicit.
-/

namespace Pickle

/-- A JavaScript primitive value, as far as the library's constructors inspect
one: `null`, `undefined`, booleans, (integer) numbers and strings. -/
inductive JSValue where
  | vNull
  | vUndefined
  | vBool (b : Bool)
  | vNum (n : Int)
  | vStr (s : String)
deriving DecidableEq, Repr

/-- JavaScript truthiness: `null`, `undefined`, `false`, `0` and the empty
string are falsy, everything else is truthy. -/
def JSValue.truthy : JSValue → Bool
  | .vNull => false
  | .vUndefined => false
  | .vBool b => b
  | .vNum n => n != 0
  | .vStr s => s != ""

/-- `value ?? null` — JavaScript nullish coalescing against `null`:
`null` and `undefined` collapse to `null`, everything else is kept. -/
def JSValue.nullishOrNull : JSValue → JSValue
  | .vNull => .vNull
  | .vUndefined => .vNull
  | v => v

/-- The `Result<Ok, Err>` sum type (Result.ts:3): either the `Ok` class
holding `value` or the `Err` class holding `error`. -/
inductive Result (α ε : Type) where
  | Ok (value : α)
  | Err (error : ε)
deriving DecidableEq, Repr

/-- The `isOk` readonly field (Result.ts:310, 414). -/
def Result.isOk : Result α ε → Bool
  | .Ok _ => true
  | .Err _ => false

/-- The `isErr` readonly field (Result.ts:311, 415). -/
def Result.isErr : Result α ε → Bool
  | .Ok _ => false
  | .Err _ => true

/-- The library's `Option<T>` sum type (Option.ts:3): the `Some` class holding
`value`, or the `None` class (no payload). Renamed `Opt` here because Lean's
core `Option` models TypeScript `T | null` slots in this development. -/
inductive Opt (α : Type) where
  | Some (value : α)
  | None
deriving DecidableEq, Repr

/-- The `isSome` readonly field (Option.ts:238, 311). -/
def Opt.isSome : Opt α → Bool
  | .Some _ => true
  | .None => false

/-- `map` on results, synchronous overload: `Ok.map` (Result.ts:355-357)
returns `new Ok(fn(this.value))`; `Err.map` (Result.ts:458-461) returns
`this` unchanged. -/
def Result.map (fn : α → β) : Result α ε → Result β ε
  | .Ok v => .Ok (fn v)
  | .Err e => .Err e

/-- `tuple` (Result.ts:342-344, 446-448): `Ok` yields `[this.value, null]`,
`Err` yields `[null, this.error]`; the `null` slots are modelled by
`Option.none`. -/
def Result.tuple : Result α ε → Option α × Option ε
  | .Ok v => (some v, none)
  | .Err e => (none, some e)

/-- `toOption` (Result.ts:397-399, 500-502): `Ok` yields
`Option.some(this.value)`, `Err` yields `Option.none`. -/
def Result.toOption : Result α ε → Opt α
  | .Ok v => .Some v
  | .Err _ => .None

/-- `map` on options, synchronous overload: `Some.map` (Option.ts:276-278)
returns `new Some(fn(this.value))`; `None.map` (Option.ts:349-352) returns
`this` unchanged. -/
def Opt.map (fn : α → β) : Opt α → Opt β
  | .Some v => .Some (fn v)
  | .None => .None

/-- `toResult` (Option.ts:294-296, 369-371) at the JavaScript value level:
`Some` yields `Result.ok(this.value)` — and `Result.ok` (Result.ts:922-923)
stores `this.value ?? null`, so an `undefined` payload comes out as `null` —
while `None` yields `Result.err(error)`, which stores `error` unchanged. -/
def Opt.toResult (error : ε) : Opt JSValue → Result JSValue ε
  | .Some v => Result.Ok v.nullishOrNull
  | .None => Result.Err error

/-- `Result.ok` (Result.ts:920-924) with its `never` error type widened, as
TypeScript does implicitly at use sites: stores `value ?? null`. -/
def Result.okWide (value : JSValue) : Result JSValue ε :=
  Result.Ok value.nullishOrNull

/-- The `Result.ok` constructor at the JavaScript value level
(Result.ts:920-924): `return new Ok(value ?? null)`.  A call with no argument
passes `undefined`.  The error type is `never` (`Empty`). -/
def okJS (value : JSValue) : Result JSValue Empty :=
  Result.Ok value.nullishOrNull

/-- The `Result.from` constructor (Result.ts:1061-1063):
`!value ? Result.err(err) : Result.ok(value)`.  Named `fromPredicate` (the
spec's name) because `from` is a Lean keyword; the body is the source's.
`Result.ok(value)` stores `value ?? null`, i.e. `value` itself since a truthy
value is neither `null` nor `undefined`. -/
def Result.fromPredicate (value : JSValue) (err : ε) : Result JSValue ε :=
  if value.truthy = false then Result.Err err else Result.Ok value.nullishOrNull

/-- The `Result.fromNullable` constructor (Result.ts:1078-1080):
`value === null ? Result.err(err) : Result.ok(value)`; `Result.ok` stores
`value ?? null`. -/
def Result.fromNullable (value : JSValue) (err : ε) : Result JSValue ε :=
  if value = JSValue.vNull then Result.Err err else Result.Ok value.nullishOrNull

/-- An optional JavaScript call argument: the caller either passed a function
`f` or passed nothing, leaving the parameter `undefined`. -/
inductive JsCall (φ : Type) where
  | fn (f : φ)
  | undef
deriving DecidableEq, Repr

/-- What a `throw` statement can raise while evaluating
`throw fn(this.error)`: the callback's own result, or the TypeError that
JavaScript raises when `fn` is `undefined` and `fn(this.error)` is evaluated
as a call of a non-function. -/
inductive JsEx (τ : Type) where
  | thrown (value : τ)
  | typeError
deriving DecidableEq, Repr

/-- `okOrThrow` at the JavaScript call level.  `Ok.okOrThrow`
(Result.ts:334-336) returns `this.value` without touching `fn`;
`Err.okOrThrow` (Result.ts:438-440) is `throw fn(this.error)` — `fn` is a
required parameter, so when the method is invoked with no argument `fn` is
`undefined` and evaluating `fn(this.error)` raises a TypeError. -/
def Result.okOrThrowJS (fn : JsCall (ε → τ)) : Result α ε → Except (JsEx τ) α
  | .Ok v => .ok v
  | .Err e =>
    .error (match fn with
      | .fn f => JsEx.thrown (f e)
      | .undef => JsEx.typeError)

/-- Claim C1, counterexample to the claim as stated: invoking the canonical
`okOrThrow` on `failure("e")` with no transform function does not throw the
error `"e"` itself — evaluating `fn(this.error)` with `fn` undefined raises a
TypeError instead. -/
theorem okOrThrow_noFn_counterexample :
    Result.okOrThrowJS JsCall.undef (Result.Err "e" : Result Nat String)
      ≠ Except.error (JsEx.thrown "e") := by
  simp [Result.okOrThrowJS]

/-- Claim C1 (amended): for every `Failure(e)`, `okOrThrow` invoked with a
transform function `fn` throws `fn(e)`; for every `Success(v)`, `okOrThrow`
returns `v` without throwing and without consulting the transform argument
(the result is the same for every argument `g`, including `undefined`). -/
theorem okOrThrow_spec (α ε τ : Type) (v : α) (e : ε) (f : ε → τ)
    (g : JsCall (ε → τ)) :
    (Result.okOrThrowJS (JsCall.fn f) (Result.Err e : Result α ε)
      = Except.error (JsEx.thrown (f e)))
    ∧ (Result.okOrThrowJS g (Result.Ok v : Result α ε) = Except.ok v) :=
  ⟨rfl, rfl⟩

/-- Claim C6: the nullable and the truthy constructor use different liveness
tests.  `fromNullable(v, m)` succeeds exactly when `v` is not `null`
(`undefined` and `0` count as present), while `from(v, f)` succeeds exactly
when `v` is truthy; concretely `fromNullable(0, 'missing')` is `success(0)`
and `from(0, 'falsy')` is `failure('falsy')`. -/
theorem nullable_vs_truthy (ε : Type) :
    (∀ (v : JSValue) (m : ε),
      (Result.fromNullable v m).isOk = decide (v ≠ JSValue.vNull))
    ∧ (∀ (v : JSValue) (f : ε), (Result.fromPredicate v f).isOk = v.truthy)
    ∧ (Result.fromNullable (JSValue.vNum 0) "missing"
        = Result.Ok (JSValue.vNum 0))
    ∧ (Result.fromPredicate (JSValue.vNum 0) "falsy" = Result.Err "falsy") := by
  refine ⟨fun v m => ?_, fun v f => ?_, rfl, rfl⟩
  · by_cases h : v = JSValue.vNull <;>
      simp [Result.fromNullable, Result.isOk, h]
  · cases hv : v.truthy <;> simp [Result.fromPredicate, Result.isOk, hv]

/-- Claim C10: `Result.ok` (Result.ts:920-924) stores `value ?? null`.  A
missing argument is `undefined`, so `success()` and `success(undefined)` both
store `null`; every value other than `undefined` (including `null`, `0` and
`''`) is stored unchanged; and no `Success` ever stores `undefined`. -/
theorem ok_normalizes_undefined (v : JSValue) (h : v ≠ JSValue.vUndefined) :
    (okJS JSValue.vUndefined = Result.Ok JSValue.vNull)
    ∧ (okJS v = Result.Ok v)
    ∧ (∀ w : JSValue, okJS w ≠ Result.Ok JSValue.vUndefined) := by
  refine ⟨rfl, ?_, fun w => ?_⟩
  · cases v <;> simp_all [okJS, JSValue.nullishOrNull]
  · cases w <;> simp [okJS, JSValue.nullishOrNull]

/-- Concrete instance of `ok_normalizes_undefined`: `success(0)` stores `0`
unchanged. -/
theorem ok_normalizes_undefined_witness :
    okJS (JSValue.vNum 0) = Result.Ok (JSValue.vNum 0) :=
  (ok_normalizes_undefined (JSValue.vNum 0) (by decide)).2.1

/-- Claim C4, counterexample to the claim as stated: the round-trip
`present(v).toOutcome(x).toPresence()` does not return `present(v)` for
`v = undefined` — `toOutcome` goes through `Result.ok`, which stores
`value ?? null`, so the trip ends at `present(null)` instead. -/
theorem roundtrip_undefined_counterexample :
    (((Opt.Some JSValue.vUndefined).toResult "x").toOption : Opt JSValue)
      ≠ Opt.Some JSValue.vUndefined := by
  decide

/-- Claim C4 (amended): round-trips between the two containers.
`success(v).toPresence().toOutcome(x)` is `success(v)` again for every `v`
(the constructor already normalized its stored value, so the second
normalization is the identity); `present(v).toOutcome(x).toPresence()` is
`present(v)` again for every `v` other than `undefined`, while
`present(undefined)` round-trips to `present(null)` because `toOutcome`
stores `value ?? null`; and `absent.toOutcome(x)` is `failure(x)`. -/
theorem roundtrip_result_option_amended (ε : Type) (v : JSValue) (x : ε)
    (h : v ≠ JSValue.vUndefined) :
    (∀ w : JSValue,
      (Result.okWide w : Result JSValue ε).toOption.toResult x = Result.okWide w)
    ∧ (((Opt.Some v).toResult x).toOption = Opt.Some v)
    ∧ (((Opt.Some JSValue.vUndefined).toResult x).toOption
        = Opt.Some JSValue.vNull)
    ∧ ((Opt.None : Opt JSValue).toResult x = Result.Err x) := by
  refine ⟨fun w => ?_, ?_, rfl, rfl⟩
  · cases w <;> rfl
  · cases v <;> first | rfl | exact absurd rfl h

/-- Concrete instance of `roundtrip_result_option_amended` at the value `5`:
`present(5).toOutcome('x').toPresence()` is `present(5)`. -/
theorem roundtrip_result_option_witness :
    ((Opt.Some (JSValue.vNum 5)).toResult "x").toOption
      = Opt.Some (JSValue.vNum 5) :=
  (roundtrip_result_option_amended String (JSValue.vNum 5) "x" (by decide)).2.1

/-- Claim C5: short-circuit law.  For every error `e`, `failure(e).map(f)` is
a `Failure` holding the same `e` whatever `f` is (universality over `f`
witnesses that `f` is never consulted), and `absent.map(f)` is `absent`
whatever `f` is. -/
theorem map_short_circuit (α β ε : Type) (e : ε) (f : α → β) :
    (Result.map f (Result.Err e : Result α ε) = Result.Err e)
    ∧ (Opt.map f (Opt.None : Opt α) = Opt.None) :=
  ⟨rfl, rfl⟩

/-- The loop of `Result.all` (Result.ts:994-1007) with the `values`
accumulator made explicit: walk the inputs, return the first `Err` unchanged,
otherwise push each `Ok` payload onto `values` and finally return
`Result.ok(values)`. -/
def Result.allGo (values : List α) : List (Result α ε) → Result (List α) ε
  | [] => Result.Ok values
  | .Err e :: _ => Result.Err e
  | .Ok v :: rest => Result.allGo (values ++ [v]) rest

/-- `Result.all` (Result.ts:994-1007): starts the loop with an empty `values`
array. -/
def Result.all (results : List (Result α ε)) : Result (List α) ε :=
  Result.allGo [] results

/-- The loop of `Result.any` (Result.ts:1033-1046) with the `errors`
accumulator made explicit: walk the inputs, return the first `Ok` unchanged,
otherwise push each `Err` payload onto `errors` and finally return
`Result.err(errors)`. -/
def Result.anyGo (errors : List ε) : List (Result α ε) → Result α (List ε)
  | [] => Result.Err errors
  | .Ok v :: _ => Result.Ok v
  | .Err e :: rest => Result.anyGo (errors ++ [e]) rest

/-- `Result.any` (Result.ts:1033-1046): starts the loop with an empty
`errors` array. -/
def Result.any (results : List (Result α ε)) : Result α (List ε) :=
  Result.anyGo [] results

lemma Result.allGo_map_ok (acc : List α) (vs : List α) :
    Result.allGo (ε := ε) acc (vs.map Result.Ok) = Result.Ok (acc ++ vs) := by
  induction vs generalizing acc with
  | nil => simp [Result.allGo]
  | cons v vs ih => simp [Result.allGo, ih, List.append_assoc]

lemma Result.allGo_first_err (acc : List α) (pre : List (Result α ε)) (e : ε)
    (post : List (Result α ε)) (h : ∀ r ∈ pre, r.isOk = true) :
    Result.allGo acc (pre ++ Result.Err e :: post) = Result.Err e := by
  induction pre generalizing acc with
  | nil => simp [Result.allGo]
  | cons r pre ih =>
    cases r with
    | Ok v => exact ih (acc ++ [v]) fun r hr => h r (List.mem_cons_of_mem _ hr)
    | Err e => exact absurd (h _ (List.mem_cons_self _ _)) (by simp [Result.isOk])

lemma Result.anyGo_map_err (acc : List ε) (es : List ε) :
    Result.anyGo (α := α) acc (es.map Result.Err) = Result.Err (acc ++ es) := by
  induction es generalizing acc with
  | nil => simp [Result.anyGo]
  | cons e es ih => simp [Result.anyGo, ih, List.append_assoc]

lemma Result.anyGo_first_ok (acc : List ε) (pre : List (Result α ε)) (v : α)
    (post : List (Result α ε)) (h : ∀ r ∈ pre, r.isErr = true) :
    Result.anyGo acc (pre ++ Result.Ok v :: post) = Result.Ok v := by
  induction pre generalizing acc with
  | nil => simp [Result.anyGo]
  | cons r pre ih =>
    cases r with
    | Err e => exact ih (acc ++ [e]) fun r hr => h r (List.mem_cons_of_mem _ hr)
    | Ok v => exact absurd (h _ (List.mem_cons_self _ _)) (by simp [Result.isErr])

/-- Claim C2: `Result.all` of a list in which every input is a `Success`
returns `success` of the values in input order (the empty list is the case
`vs = []`); and as soon as a `Failure` follows a `Success`-only prefix, that
first `Failure` is returned unchanged, whatever comes after it (the result is
the same for every suffix `post`, so inputs after the first failure are never
examined). -/
theorem all_spec (α ε : Type) (vs : List α) (pre : List (Result α ε)) (e : ε)
    (post : List (Result α ε)) (h : ∀ r ∈ pre, r.isOk = true) :
    (Result.all (vs.map Result.Ok : List (Result α ε)) = Result.Ok vs)
    ∧ (Result.all (pre ++ Result.Err e :: post) = Result.Err e) := by
  refine ⟨?_, ?_⟩
  · simpa using Result.allGo_map_ok [] vs
  · exact Result.allGo_first_err [] pre e post h

/-- Concrete instance of `all_spec`: `allOf(success(1), success(2))` is
`success([1, 2])`; `allOf(success(1), failure('e'), failure('f'))` is
`failure('e')`; and `allOf()` is `success([])`. -/
theorem all_spec_witness :
    (Result.all ([Result.Ok 1, Result.Ok 2] : List (Result Nat String))
      = Result.Ok [1, 2])
    ∧ (Result.all
        ([Result.Ok 1, Result.Err "e", Result.Err "f"] : List (Result Nat String))
      = Result.Err "e")
    ∧ (Result.all ([] : List (Result Nat String)) = Result.Ok []) :=
  ⟨(all_spec Nat String [1, 2] [Result.Ok 1] "e" [Result.Err "f"]
      (by simp [Result.isOk])).1,
   (all_spec Nat String [1, 2] [Result.Ok 1] "e" [Result.Err "f"]
      (by simp [Result.isOk])).2,
   (all_spec Nat String [] [Result.Ok 1] "e" [Result.Err "f"]
      (by simp [Result.isOk])).1⟩

/-- Claim C3: `Result.any` of a list in which no input is a `Success` returns
`failure` of every input's error in input order (the empty list is the case
`es = []`); and as soon as a `Success` follows a `Failure`-only prefix, that
first `Success` is returned unchanged, whatever comes after it. -/
theorem any_spec (α ε : Type) (es : List ε) (pre : List (Result α ε)) (v : α)
    (post : List (Result α ε)) (h : ∀ r ∈ pre, r.isErr = true) :
    (Result.any (es.map Result.Err : List (Result α ε)) = Result.Err es)
    ∧ (Result.any (pre ++ Result.Ok v :: post) = Result.Ok v) := by
  refine ⟨?_, ?_⟩
  · simpa using Result.anyGo_map_err [] es
  · exact Result.anyGo_first_ok [] pre v post h

/-- Concrete instance of `any_spec`: `anyOf(failure('a'), failure('b'))` is
`failure(['a', 'b'])`; `anyOf(failure('a'), success(2), success(3))` is
`success(2)`; and `anyOf()` is `failure([])`. -/
theorem any_spec_witness :
    (Result.any ([Result.Err "a", Result.Err "b"] : List (Result Nat String))
      = Result.Err ["a", "b"])
    ∧ (Result.any
        ([Result.Err "a", Result.Ok 2, Result.Ok 3] : List (Result Nat String))
      = Result.Ok 2)
    ∧ (Result.any ([] : List (Result Nat String)) = Result.Err []) :=
  ⟨(any_spec Nat String ["a", "b"] [Result.Err "a"] 2 [Result.Ok 3]
      (by simp [Result.isErr])).1,
   (any_spec Nat String ["a", "b"] [Result.Err "a"] 2 [Result.Ok 3]
      (by simp [Result.isErr])).2,
   (any_spec Nat String [] [Result.Err "a"] 2 [Result.Ok 3]
      (by simp [Result.isErr])).1⟩

/-- A settled JavaScript promise: the model of a `Promise` object whose
resolution value is already determined.  As an object it is always truthy. -/
structure Promise (α : Type) where
  resolved : α
deriving DecidableEq, Repr

/-- The `Async` wrapper class (Result.ts:785-888): holds a
`MaybePromise<Result<Ok, Err>>`, modelled here in its settled state.  `await`
on a settled promise yields `resolved`, so the class's
`then(resolve) { resolve(await this.result) }` (Result.ts:788-790) hands the
stored result to the continuation. -/
structure Async (α ε : Type) where
  result : Result α ε
deriving DecidableEq, Repr

/-- `Result.async` (Result.ts:1085-1089): wraps a result in `Async`. -/
def Result.async (result : Result α ε) : Async α ε :=
  Async.mk result

/-- Awaiting the wrapper (`then`, Result.ts:788-790): resolves to the
underlying result. -/
def Async.awaitResult (a : Async α ε) : Result α ε :=
  a.result

/-- `Async.map` (Result.ts:832-840) at the JavaScript value level: awaits the
stored result, applies the synchronous `map` with a callback that wraps
`fn`'s output in a promise (`async (ok) => fn(ok)`), destructures the
`tuple()` of that intermediate result as `[promise, error]`, and returns
`Result.ok(await promise)` when `promise` is truthy — a `Promise` object
always is — and `Result.err(error)` when it is `null`.  `Result.ok` stores
`(await promise) ?? null`, while `Result.err` stores `error` unchanged.  The
third match arm is unreachable for genuine results (JavaScript would build
`Result.err(null)` there). -/
def Async.map [Inhabited ε] (fn : JSValue → JSValue) (a : Async JSValue ε) :
    Async JSValue ε :=
  let awaited := a.result
  let t := (Result.map (fun ok => Promise.mk (fn ok)) awaited).tuple
  Result.async (match t with
    | (some promise, _) => Result.Ok promise.resolved.nullishOrNull
    | (none, some error) => Result.Err error
    | (none, none) => Result.Err default)

/-- Claim C7, counterexample to the claim as stated: for a transform that
returns `undefined`, the async chain re-wraps the awaited value through
`Result.ok`, which stores `value ?? null`, while the synchronous `Ok.map`
stores `fn`'s output unchanged — so the resolved container differs from the
synchronous one in stored value (`Ok(null)` versus `Ok(undefined)`). -/
theorem async_map_parity_counterexample :
    (Async.map (fun _ => JSValue.vUndefined)
        (Result.async (Result.Ok (JSValue.vNum 1) : Result JSValue String))).awaitResult
      ≠ Result.map (fun _ => JSValue.vUndefined)
          (Result.Ok (JSValue.vNum 1) : Result JSValue String) := by
  decide

/-- Claim C7 (amended): async parity for `map`, except at an `undefined`
transform output.  Awaiting the wrapper built from `c` after `map(fn)`
resolves to exactly the synchronous `c.map(fn)` — same variant, same stored
value — whenever `fn`'s output on the contained value is not `undefined`; on
a `Failure` parity is unconditional; and when `fn` returns `undefined` on the
contained value, the resolved container stores `null` where the synchronous
one stores `undefined`. -/
theorem async_map_parity_amended (ε : Type) [Inhabited ε]
    (c : Result JSValue ε) (fn : JSValue → JSValue)
    (h : ∀ v : JSValue, c = Result.Ok v → fn v ≠ JSValue.vUndefined) :
    ((Async.map fn (Result.async c)).awaitResult = Result.map fn c)
    ∧ (∀ e : ε,
        (Async.map fn (Result.async (Result.Err e))).awaitResult = Result.Err e)
    ∧ (∀ v : JSValue, fn v = JSValue.vUndefined →
        (Async.map fn (Result.async (Result.Ok v : Result JSValue ε))).awaitResult
          = Result.Ok JSValue.vNull) := by
  refine ⟨?_, fun e => rfl, fun v hv => ?_⟩
  · cases c with
    | Err e => rfl
    | Ok v =>
      have hv := h v rfl
      cases hfn : fn v <;>
        simp_all [Async.map, Async.awaitResult, Result.async, Result.map,
          Result.tuple, JSValue.nullishOrNull]
  · simp [Async.map, Async.awaitResult, Result.async, Result.map,
      Result.tuple, hv, JSValue.nullishOrNull]

/-- Concrete instance of `async_map_parity_amended`: mapping the identity
over a successful async wrapper resolves to the synchronous `map`'s
result. -/
theorem async_map_parity_witness :
    (Async.map (fun w => w)
        (Result.async (Result.Ok (JSValue.vNum 1) : Result JSValue String))).awaitResult
      = Result.map (fun w => w)
          (Result.Ok (JSValue.vNum 1) : Result JSValue String) :=
  (async_map_parity_amended String (Result.Ok (JSValue.vNum 1)) (fun w => w)
    (by intro v hv; injection hv with hv; subst hv; decide)).1

/-- Allocation-aware model of the library's option objects, for reasoning
about runtime instance identity: each object carries the numeric identity of
the `new` expression that created it, and two objects are the same runtime
instance exactly when they are equal here.  `Option.none` (Option.ts:420) is
`new None()` evaluated once at module load; it is the instance with identity
`0`, and every `new` inside an operation is given a nonzero identity. -/
inductive OptObj (α : Type) where
  | mkSome (objId : Nat) (value : α)
  | mkNone (objId : Nat)
deriving DecidableEq, Repr

/-- The module-level shared `Option.none` instance (Option.ts:420). -/
def sharedNone : OptObj α :=
  OptObj.mkNone 0

/-- The `isSome` readonly field on allocation-aware objects. -/
def OptObj.isSome : OptObj α → Bool
  | .mkSome _ _ => true
  | .mkNone _ => false

/-- `Ok.filter` (Result.ts:393-395):
`fn(this.value) ? Option.some(this.value) : Option.none`; `k` is the
identity handed to the `new Some` allocation inside `Option.some`. -/
def okFilterAlloc (k : Nat) (v : α) (fn : α → Bool) : OptObj α :=
  if fn v then OptObj.mkSome k v else sharedNone

/-- `Some.filter` (Option.ts:290-292): `fn(this.value) ? this : Option.none`;
`selfId`/`v` are the receiver's identity and payload — the success branch
returns the receiver itself, not a copy. -/
def someFilterAlloc (selfId : Nat) (v : α) (fn : α → Bool) : OptObj α :=
  if fn v then OptObj.mkSome selfId v else sharedNone

/-- `Err.filter` (Result.ts:496-498): returns `Option.none`, ignoring the
predicate. -/
def errFilterAlloc (_fn : α → Bool) : OptObj α :=
  sharedNone

/-- `Err.toOption` (Result.ts:500-502): returns `Option.none`. -/
def errToOptionAlloc (_e : ε) : OptObj α :=
  sharedNone

/-- `Option.from` (Option.ts:510-512):
`!value ? Option.none : Option.some(value)`; `k` is the identity for the
`new Some` in the truthy branch. -/
def optFromAlloc (k : Nat) (value : JSValue) : OptObj JSValue :=
  if value.truthy = false then sharedNone else OptObj.mkSome k value

/-- `Option.fromNullable` (Option.ts:527-529):
`value === null ? Option.none : Option.some(value)`. -/
def optFromNullableAlloc (k : Nat) (value : JSValue) : OptObj JSValue :=
  if value = JSValue.vNull then sharedNone else OptObj.mkSome k value

/-- `Option.any` (Option.ts:485-495): walks the inputs and returns the first
`Some` object itself; if none is a `Some`, returns `Option.none`. -/
def optAnyAlloc : List (OptObj α) → OptObj α
  | [] => sharedNone
  | o :: rest => if o.isSome then o else optAnyAlloc rest

/-- Claim C8: every absent-producing branch returns the single shared
`Option.none` instance (identity 0), never a freshly allocated one — the
result is the very object bound at module load, independent of the fresh
allocation identities `k`/`selfId` available to each operation. -/
theorem absent_is_shared_singleton (α ε : Type) (k selfId : Nat) (v : α)
    (fn : α → Bool) (e : ε) (w : JSValue) (os : List (OptObj α))
    (hfn : fn v = false) (hw : w.truthy = false)
    (hos : ∀ o ∈ os, o.isSome = false) :
    (okFilterAlloc k v fn = sharedNone)
    ∧ (someFilterAlloc selfId v fn = sharedNone)
    ∧ (errFilterAlloc fn = sharedNone)
    ∧ (errToOptionAlloc e = (sharedNone : OptObj α))
    ∧ (optFromAlloc k w = sharedNone)
    ∧ (optFromNullableAlloc k JSValue.vNull = sharedNone)
    ∧ (optAnyAlloc os = sharedNone) := by
  refine ⟨by simp [okFilterAlloc, hfn], by simp [someFilterAlloc, hfn], rfl,
    rfl, by simp [optFromAlloc, hw], by simp [optFromNullableAlloc], ?_⟩
  induction os with
  | nil => rfl
  | cons o rest ih =>
    have ho := hos o (List.mem_cons_self _ _)
    simp only [optAnyAlloc, ho, Bool.false_eq_true, if_false]
    exact ih fun o' ho' => hos o' (List.mem_cons_of_mem _ ho')

/-- Concrete instance of `absent_is_shared_singleton` at a failing predicate,
a falsy value and an all-absent input list. -/
theorem absent_is_shared_singleton_witness :
    (okFilterAlloc 1 (3 : Nat) (fun _ => false) = sharedNone)
    ∧ (someFilterAlloc 2 (3 : Nat) (fun _ => false) = sharedNone)
    ∧ (errFilterAlloc (fun (_ : Nat) => false) = sharedNone)
    ∧ (errToOptionAlloc "e" = (sharedNone : OptObj Nat))
    ∧ (optFromAlloc 1 (JSValue.vNum 0) = sharedNone)
    ∧ (optFromNullableAlloc 1 JSValue.vNull = sharedNone)
    ∧ (optAnyAlloc [OptObj.mkNone 5, OptObj.mkNone 0] = (sharedNone : OptObj Nat)) :=
  absent_is_shared_singleton Nat String 1 2 3 (fun _ => false) "e"
    (JSValue.vNum 0) [OptObj.mkNone 5, OptObj.mkNone 0] rfl rfl
    (by simp [OptObj.isSome])

/-- Whether an embedded method call completed normally, i.e. returned without
raising.  Every method body below is translated into `Except`, with a
JavaScript `throw x` statement becoming `Except.error x` and every `return`
becoming `Except.ok`; a caller-supplied callback is a total Lean function,
i.e. it is assumed to return normally. -/
def isOkE : Except τ β → Bool
  | .ok _ => true
  | .error _ => false

/-- `unsafe` (Result.ts:314-316, 418-420): returns `this.value` on `Ok` and
`this.error` on `Err`; the `Ok | Err` union return type is the sum. -/
def Result.unsafeT : Result α ε → Except τ (α ⊕ ε)
  | .Ok v => .ok (.inl v)
  | .Err e => .ok (.inr e)

/-- `okOr` (Result.ts:318-320, 422-424): `this.value` on `Ok`, the fallback
on `Err`. -/
def Result.okOrT (fallback : β) : Result α ε → Except τ (α ⊕ β)
  | .Ok v => .ok (.inl v)
  | .Err _ => .ok (.inr fallback)

/-- `errorOr` (Result.ts:322-324, 426-428): the fallback on `Ok`,
`this.error` on `Err`. -/
def Result.errorOrT (fallback : β) : Result α ε → Except τ (ε ⊕ β)
  | .Ok _ => .ok (.inr fallback)
  | .Err e => .ok (.inl e)

/-- `okOrElse` (Result.ts:326-328, 430-432): `this.value` on `Ok`, `fn()` on
`Err`. -/
def Result.okOrElseT (fn : Unit → β) : Result α ε → Except τ (α ⊕ β)
  | .Ok v => .ok (.inl v)
  | .Err _ => .ok (.inr (fn ()))

/-- `errorOrElse` (Result.ts:330-332, 434-436): `fn()` on `Ok`, `this.error`
on `Err`. -/
def Result.errorOrElseT (fn : Unit → β) : Result α ε → Except τ (ε ⊕ β)
  | .Ok _ => .ok (.inr (fn ()))
  | .Err e => .ok (.inl e)

/-- `tuple` (Result.ts:342-344, 446-448) in throwing semantics. -/
def Result.tupleT : Result α ε → Except τ (Option α × Option ε)
  | .Ok v => .ok (some v, none)
  | .Err e => .ok (none, some e)

/-- `or` (Result.ts:346-351, 450-454): `Ok` returns itself, `Err` returns the
other result.  TypeScript widens the union `Ok | OtherOk`; the embedding
instantiates both results at the same type. -/
def Result.orT (other : Result α ε) : Result α ε → Except τ (Result α ε)
  | .Ok v => .ok (.Ok v)
  | .Err _ => .ok other

/-- `map` (Result.ts:353-357, 456-461) in throwing semantics. -/
def Result.mapT (fn : α → β) : Result α ε → Except τ (Result β ε)
  | .Ok v => .ok (.Ok (fn v))
  | .Err e => .ok (.Err e)

/-- `flatMap` (Result.ts:359-369, 463-474): `fn(this.value)` on `Ok`, itself
on `Err`. -/
def Result.flatMapT (fn : α → Result β ε) : Result α ε → Except τ (Result β ε)
  | .Ok v => .ok (fn v)
  | .Err e => .ok (.Err e)

/-- `mapErr` (Result.ts:371-378, 476-482): itself on `Ok`,
`new Err(fn(this.error))` on `Err`. -/
def Result.mapErrT (fn : ε → γ) : Result α ε → Except τ (Result α γ)
  | .Ok v => .ok (.Ok v)
  | .Err e => .ok (.Err (fn e))

/-- `flatMapErr` (Result.ts:380-391, 484-494): itself on `Ok`,
`fn(this.error)` on `Err`. -/
def Result.flatMapErrT (fn : ε → Result α γ) : Result α ε → Except τ (Result α γ)
  | .Ok v => .ok (.Ok v)
  | .Err e => .ok (fn e)

/-- `filter` (Result.ts:393-395, 496-498) in throwing semantics. -/
def Result.filterT (fn : α → Bool) : Result α ε → Except τ (Opt α)
  | .Ok v => .ok (if fn v then .Some v else .None)
  | .Err _ => .ok .None

/-- `toOption` (Result.ts:397-399, 500-502) in throwing semantics. -/
def Result.toOptionT : Result α ε → Except τ (Opt α)
  | .Ok v => .ok (.Some v)
  | .Err _ => .ok .None

/-- `effect` (Result.ts:401-404, 504-506): on `Ok`, invokes `fn(this.value)`
for its side effect (modelled as a pure `Unit`-valued call) and returns
itself; on `Err`, returns itself untouched. -/
def Result.effectT (fn : α → Unit) : Result α ε → Except τ (Result α ε)
  | .Ok v =>
    let _u := fn v
    .ok (.Ok v)
  | .Err e => .ok (.Err e)

/-- `effectErr` (Result.ts:406-408, 508-511): on `Err`, invokes
`fn(this.error)` for its side effect and returns itself; on `Ok`, returns
itself untouched. -/
def Result.effectErrT (fn : ε → Unit) : Result α ε → Except τ (Result α ε)
  | .Ok v => .ok (.Ok v)
  | .Err e =>
    let _u := fn e
    .ok (.Err e)

/-- Claim C9: failures never raise.  For both variants and every operation of
the result type other than the `okOrThrow`/`errorOrThrow` pair — whose bodies
are the only ones containing a `throw` statement — the call completes
normally whatever the arguments, provided the caller-supplied callbacks
themselves return normally (callbacks here are total functions). -/
theorem failures_never_raise (α ε β γ τ : Type) :
    (∀ r : Result α ε, isOkE (Result.unsafeT r : Except τ (α ⊕ ε)) = true)
    ∧ (∀ (b : β) (r : Result α ε),
        isOkE (Result.okOrT b r : Except τ (α ⊕ β)) = true)
    ∧ (∀ (b : β) (r : Result α ε),
        isOkE (Result.errorOrT b r : Except τ (ε ⊕ β)) = true)
    ∧ (∀ (fn : Unit → β) (r : Result α ε),
        isOkE (Result.okOrElseT fn r : Except τ (α ⊕ β)) = true)
    ∧ (∀ (fn : Unit → β) (r : Result α ε),
        isOkE (Result.errorOrElseT fn r : Except τ (ε ⊕ β)) = true)
    ∧ (∀ r : Result α ε,
        isOkE (Result.tupleT r : Except τ (Option α × Option ε)) = true)
    ∧ (∀ other r : Result α ε,
        isOkE (Result.orT other r : Except τ (Result α ε)) = true)
    ∧ (∀ (fn : α → β) (r : Result α ε),
        isOkE (Result.mapT fn r : Except τ (Result β ε)) = true)
    ∧ (∀ (fn : α → Result β ε) (r : Result α ε),
        isOkE (Result.flatMapT fn r : Except τ (Result β ε)) = true)
    ∧ (∀ (fn : ε → γ) (r : Result α ε),
        isOkE (Result.mapErrT fn r : Except τ (Result α γ)) = true)
    ∧ (∀ (fn : ε → Result α γ) (r : Result α ε),
        isOkE (Result.flatMapErrT fn r : Except τ (Result α γ)) = true)
    ∧ (∀ (fn : α → Bool) (r : Result α ε),
        isOkE (Result.filterT fn r : Except τ (Opt α)) = true)
    ∧ (∀ r : Result α ε, isOkE (Result.toOptionT r : Except τ (Opt α)) = true)
    ∧ (∀ (fn : α → Unit) (r : Result α ε),
        isOkE (Result.effectT fn r : Except τ (Result α ε)) = true)
    ∧ (∀ (fn : ε → Unit) (r : Result α ε),
        isOkE (Result.effectErrT fn r : Except τ (Result α ε)) = true) :=
  ⟨fun r => by cases r <;> rfl,
   fun b r => by cases r <;> rfl,
   fun b r => by cases r <;> rfl,
   fun fn r => by cases r <;> rfl,
   fun fn r => by cases r <;> rfl,
   fun r => by cases r <;> rfl,
   fun other r => by cases r <;> rfl,
   fun fn r => by cases r <;> rfl,
   fun fn r => by cases r <;> rfl,
   fun fn r => by cases r <;> rfl,
   fun fn r => by cases r <;> rfl,
   fun fn r => by cases r <;> rfl,
   fun r => by cases r <;> rfl,
   fun fn r => by cases r <;> rfl,
   fun fn r => by cases r <;> rfl⟩

end Pickle
